import Mathlib

/-!
Verification development for the database MCP server's session-lifecycle core
(`src/types/session.ts`) and the tool/resource dispatch boundary
(`src/tools/postgres.ts`, `src/tools/redis.ts`, `src/resources/index.ts`).

The TypeScript code is shallowly embedded: asynchronous driver calls that may
reject are modelled as `Except String`-valued operations whose outcome is
dictated by an explicit environment (`ConnEnv` for connection attempts,
`CloseEnv` for close attempts); `try/catch` blocks become matches on those
`Except` values; the JavaScript `Map<string, DatabaseSession>` becomes an
insertion-ordered association list with `Map`-faithful get/set/delete; `Date`
timestamps become millisecond counts.  Connection attempts additionally emit
an event trace (`ConnEvent`) recording the start and completion of each
backend's initialization, so that ordering and failure-isolation properties
can be stated.
-/

namespace DbMcp

/-- The four backend kinds supported by the server. -/
inductive BackendKind
  | postgres
  | redis
  | mongodb
  | influxdb
  deriving DecidableEq, Repr

/-- Configuration for one plain backend: mirrors the `enabled`/`url` fields of
`DatabaseConfig.postgres`, `.redis` and `.mongodb` in `src/types/session.ts`. -/
structure BackendConfig where
  enabled : Bool
  url : Option String
  deriving DecidableEq, Repr

/-- Configuration for the InfluxDB backend: mirrors `DatabaseConfig.influxdb`. -/
structure InfluxConfig where
  enabled : Bool
  url : Option String
  token : Option String
  org : Option String
  bucket : Option String
  deriving DecidableEq, Repr

/-- Mirror of the `DatabaseConfig` interface: `postgres` is required, the other
three backends are optional (the `?` of the TypeScript interface becomes
`Option`). -/
structure DatabaseConfig where
  postgres : BackendConfig
  redis : Option BackendConfig
  mongodb : Option BackendConfig
  influxdb : Option InfluxConfig
  deriving DecidableEq, Repr

/-- JavaScript truthiness of an optional string: `undefined` and the empty
string are falsy, every other string is truthy. -/
def truthyStr : Option String → Bool
  | some s => s != ""
  | none => false

/-- Character-list prefix test (structural, so it evaluates by reduction). -/
def charsPrefix : List Char → List Char → Bool
  | [], _ => true
  | _ :: _, [] => false
  | a :: as, b :: bs => (a == b) && charsPrefix as bs

/-- Prefix test on strings, via their character lists. -/
def strStartsWith (s pre : String) : Bool :=
  charsPrefix pre.data s.data

/-- Substring test, modelling JavaScript `String.prototype.includes`. -/
def strIncludes (s pat : String) : Bool :=
  (List.range (s.data.length + 1)).any (fun i => charsPrefix pat.data (s.data.drop i))

/-- Handle produced by `new PostgresClient(...)`: records the connection string
and whether ssl was disabled (the source disables ssl when the url contains
`localhost`). -/
structure PgHandle where
  connectionString : String
  sslDisabled : Bool
  deriving DecidableEq, Repr

/-- Handle produced by `new Redis(url)`. -/
structure RedisHandle where
  url : String
  deriving DecidableEq, Repr

/-- Handle produced by `new MongoClient(url)`. -/
structure MongoHandle where
  url : String
  deriving DecidableEq, Repr

/-- Handle produced by `new InfluxDB(\x7b url, token \x7d)`: a pure
constructor, no connection is attempted. -/
structure InfluxHandle where
  url : String
  token : String
  deriving DecidableEq, Repr

/-- Environment dictating the outcome of each backend's connection attempt.
`influxReachable` records whether an InfluxDB server would answer; the
initialization code never consults it because constructing the InfluxDB
handle performs no network call. -/
structure ConnEnv where
  pgOk : Bool
  redisOk : Bool
  mongoOk : Bool
  influxReachable : Bool
  deriving DecidableEq, Repr

/-- `new PostgresClient(...)` followed by `await postgres.connect()`: succeeds
or rejects according to the environment. -/
def pgConnect (env : ConnEnv) (url : String) : Except String PgHandle :=
  if env.pgOk then
    Except.ok { connectionString := url, sslDisabled := strIncludes url "localhost" }
  else
    Except.error "connect ECONNREFUSED"

/-- `new Redis(url)` followed by `await redis.ping()`. -/
def redisConnect (env : ConnEnv) (url : String) : Except String RedisHandle :=
  if env.redisOk then Except.ok { url := url } else Except.error "connect ECONNREFUSED"

/-- `new MongoClient(url)` followed by `await mongodb.connect()`. -/
def mongoConnect (env : ConnEnv) (url : String) : Except String MongoHandle :=
  if env.mongoOk then Except.ok { url := url } else Except.error "connect ECONNREFUSED"

/-- Whether a url carries a protocol the InfluxDB Node transport supports:
the client library's transport accepts only `http` and `https` urls. -/
def urlSupportedProtocol (url : String) : Bool :=
  strStartsWith url "http://" || strStartsWith url "https://"

/-- `new InfluxDB(\x7b url, token \x7d)`: performs no network call (so its
outcome is independent of server reachability), but the constructor eagerly
builds the Node HTTP transport and throws synchronously when the (truthy)
url does not carry a supported `http(s)` protocol. -/
def influxClientNew (url token : String) : Except String InfluxHandle :=
  if urlSupportedProtocol url then Except.ok { url := url, token := token }
  else Except.error "Unsupported protocol"

/-- Mirror of the `DatabaseClients` interface: one optional handle per backend. -/
structure DatabaseClients where
  postgres : Option PgHandle
  redis : Option RedisHandle
  mongodb : Option MongoHandle
  influxdb : Option InfluxHandle
  deriving DecidableEq, Repr

/-- The fresh `clients` record `const clients: DatabaseClients = \x7b\x7d`. -/
def emptyClients : DatabaseClients :=
  { postgres := none, redis := none, mongodb := none, influxdb := none }

/-- Events emitted while initializing a session's clients: the start of one
backend's connection attempt, and its completion (success or failure). -/
inductive ConnEvent
  | attemptStart (kind : BackendKind)
  | attemptDone (kind : BackendKind) (ok : Bool)
  deriving DecidableEq, Repr

/-- Trace block of one backend's connection attempt: it starts, then completes. -/
def attemptBlock (k : BackendKind) (ok : Bool) : List ConnEvent :=
  [ConnEvent.attemptStart k, ConnEvent.attemptDone k ok]

/-- Guard of the PostgreSQL block: `config.postgres.enabled && config.postgres.url`. -/
def pgGuard (config : DatabaseConfig) : Bool :=
  config.postgres.enabled && truthyStr config.postgres.url

/-- Guard of the Redis block: `config.redis?.enabled && config.redis.url`. -/
def redisGuard (config : DatabaseConfig) : Bool :=
  match config.redis with
  | some r => r.enabled && truthyStr r.url
  | none => false

/-- Guard of the MongoDB block: `config.mongodb?.enabled && config.mongodb.url`. -/
def mongoGuard (config : DatabaseConfig) : Bool :=
  match config.mongodb with
  | some m => m.enabled && truthyStr m.url
  | none => false

/-- Guard of the InfluxDB block:
`config.influxdb?.enabled && config.influxdb.url && config.influxdb.token`. -/
def influxGuard (config : DatabaseConfig) : Bool :=
  match config.influxdb with
  | some i => i.enabled && truthyStr i.url && truthyStr i.token
  | none => false

/-- The (string value of the) PostgreSQL url; meaningful when `pgGuard` holds. -/
def pgCfgUrl (config : DatabaseConfig) : String :=
  config.postgres.url.getD ""

/-- The Redis url; meaningful when `redisGuard` holds. -/
def redisCfgUrl (config : DatabaseConfig) : String :=
  match config.redis with
  | some r => r.url.getD ""
  | none => ""

/-- The MongoDB url; meaningful when `mongoGuard` holds. -/
def mongoCfgUrl (config : DatabaseConfig) : String :=
  match config.mongodb with
  | some m => m.url.getD ""
  | none => ""

/-- The InfluxDB url; meaningful when `influxGuard` holds. -/
def influxCfgUrl (config : DatabaseConfig) : String :=
  match config.influxdb with
  | some i => i.url.getD ""
  | none => ""

/-- The InfluxDB token; meaningful when `influxGuard` holds. -/
def influxCfgToken (config : DatabaseConfig) : String :=
  match config.influxdb with
  | some i => i.token.getD ""
  | none => ""

/-- The `// Initialize PostgreSQL client` block of `initializeSessionClients`:
if enabled and a url is present, try to connect; on success store the handle,
on failure log and leave the slot empty. -/
def initPostgres (env : ConnEnv) (config : DatabaseConfig) (c : DatabaseClients) :
    DatabaseClients × List ConnEvent :=
  if pgGuard config then
    match pgConnect env (pgCfgUrl config) with
    | Except.ok h => ({ c with postgres := some h }, attemptBlock BackendKind.postgres true)
    | Except.error _ => (c, attemptBlock BackendKind.postgres false)
  else (c, [])

/-- The `// Initialize Redis client` block of `initializeSessionClients`. -/
def initRedis (env : ConnEnv) (config : DatabaseConfig) (c : DatabaseClients) :
    DatabaseClients × List ConnEvent :=
  if redisGuard config then
    match redisConnect env (redisCfgUrl config) with
    | Except.ok h => ({ c with redis := some h }, attemptBlock BackendKind.redis true)
    | Except.error _ => (c, attemptBlock BackendKind.redis false)
  else (c, [])

/-- The `// Initialize MongoDB client` block of `initializeSessionClients`. -/
def initMongo (env : ConnEnv) (config : DatabaseConfig) (c : DatabaseClients) :
    DatabaseClients × List ConnEvent :=
  if mongoGuard config then
    match mongoConnect env (mongoCfgUrl config) with
    | Except.ok h => ({ c with mongodb := some h }, attemptBlock BackendKind.mongodb true)
    | Except.error _ => (c, attemptBlock BackendKind.mongodb false)
  else (c, [])

/-- The `// Initialize InfluxDB client` block of `initializeSessionClients`:
inside the `try` there is only the constructor call — no network I/O — but
that call can still throw synchronously (unsupported url protocol), in which
case the catch logs and the slot is left empty. -/
def initInflux (env : ConnEnv) (config : DatabaseConfig) (c : DatabaseClients) :
    DatabaseClients × List ConnEvent :=
  if influxGuard config then
    match influxClientNew (influxCfgUrl config) (influxCfgToken config) with
    | Except.ok h => ({ c with influxdb := some h }, attemptBlock BackendKind.influxdb true)
    | Except.error _ => (c, attemptBlock BackendKind.influxdb false)
  else (c, [])

/-- `initializeSessionClients(config)`: the four backend blocks run strictly in
sequence — PostgreSQL, Redis, MongoDB, InfluxDB — each completing before the
next begins; the emitted trace is the concatenation of the per-backend blocks. -/
def initializeSessionClients (env : ConnEnv) (config : DatabaseConfig) :
    DatabaseClients × List ConnEvent :=
  let r1 := initPostgres env config emptyClients
  let r2 := initRedis env config r1.1
  let r3 := initMongo env config r2.1
  let r4 := initInflux env config r3.1
  (r4.1, r1.2 ++ r2.2 ++ r3.2 ++ r4.2)

/-- Mirror of the `DatabaseSession` interface.  The `cleanup` closure of the
source captures exactly the session's `clients`, so it is modelled by applying
`cleanupRun` to the `clients` field rather than stored in the structure. -/
structure DatabaseSession where
  id : String
  createdAt : Nat
  clients : DatabaseClients
  deriving DecidableEq, Repr

/-- `createDatabaseSession(sessionId, config)`: initialize the clients, stamp
the creation time, and return the session together with the connection trace. -/
def createDatabaseSession (env : ConnEnv) (now : Nat) (sessionId : String)
    (config : DatabaseConfig) : DatabaseSession × List ConnEvent :=
  let r := initializeSessionClients env config
  ({ id := sessionId, createdAt := now, clients := r.1 }, r.2)

/-- The session registry: JavaScript `Map<string, DatabaseSession>` modelled as
an insertion-ordered association list with unique keys. -/
abbrev Registry := List (String × DatabaseSession)

/-- `sessions.get(id)`: the value at the first matching key, if any. -/
def regFind? : Registry → String → Option DatabaseSession
  | [], _ => none
  | (k, v) :: rest, id => if k == id then some v else regFind? rest id

/-- `sessions.set(id, s)`: replace the existing entry in place, else append. -/
def regSet : Registry → String → DatabaseSession → Registry
  | [], id, s => [(id, s)]
  | (k, v) :: rest, id, s =>
    if k == id then (id, s) :: rest else (k, v) :: regSet rest id s

/-- `sessions.delete(id)`: remove the entry with the given key. -/
def regDelete : Registry → String → Registry
  | [], _ => []
  | (k, v) :: rest, id => if k == id then rest else (k, v) :: regDelete rest id

/-- `getOrCreateSession(sessionId, config, sessions)`: return the existing
session unchanged (empty connection trace), or create one, store it under the
id, and return it together with its connection trace. -/
def getOrCreateSession (env : ConnEnv) (now : Nat) (sessionId : String)
    (config : DatabaseConfig) (sessions : Registry) :
    DatabaseSession × Registry × List ConnEvent :=
  match regFind? sessions sessionId with
  | some session => (session, sessions, [])
  | none =>
    let r := createDatabaseSession env now sessionId config
    (r.1, regSet sessions sessionId r.1, r.2)

/-- Environment dictating whether each backend's native close call rejects. -/
structure CloseEnv where
  pgCloseOk : Bool
  redisCloseOk : Bool
  mongoCloseOk : Bool
  deriving DecidableEq, Repr

/-- One close attempt during `cleanup`: which backend, and whether the native
close succeeded (`ok = false` means the close threw and the error was caught). -/
structure CloseEvent where
  kind : BackendKind
  ok : Bool
  deriving DecidableEq, Repr

/-- `await clients.postgres.end()`. -/
def pgEnd (cenv : CloseEnv) : Except String Unit :=
  if cenv.pgCloseOk then Except.ok () else Except.error "error closing PostgreSQL"

/-- `clients.redis.disconnect()`. -/
def redisDisconnect (cenv : CloseEnv) : Except String Unit :=
  if cenv.redisCloseOk then Except.ok () else Except.error "error closing Redis"

/-- `await clients.mongodb.close()`. -/
def mongoClose (cenv : CloseEnv) : Except String Unit :=
  if cenv.mongoCloseOk then Except.ok () else Except.error "error closing MongoDB"

/-- One `try \x7b await close; log \x7d catch \x7b log \x7d` block of the
session's `cleanup` closure: the outcome is caught either way and recorded as
an event; nothing propagates. -/
def tryClose (k : BackendKind) (r : Except String Unit) : List CloseEvent :=
  match r with
  | Except.ok _ => [{ kind := k, ok := true }]
  | Except.error _ => [{ kind := k, ok := false }]

/-- The close attempts made by the session's `cleanup()` closure: the native
close of each non-empty slot, in order PostgreSQL, Redis, MongoDB, each
inside its own `try/catch`; for InfluxDB only a log line is emitted
(`InfluxDB client doesn't need explicit cleanup`), no close call exists. -/
def cleanupEvents (cenv : CloseEnv) (clients : DatabaseClients) : List CloseEvent :=
  (match clients.postgres with
   | some _ => tryClose BackendKind.postgres (pgEnd cenv)
   | none => []) ++
  (match clients.redis with
   | some _ => tryClose BackendKind.redis (redisDisconnect cenv)
   | none => []) ++
  (match clients.mongodb with
   | some _ => tryClose BackendKind.mongodb (mongoClose cenv)
   | none => [])

/-- The session's `cleanup()` closure as a whole: an async function that could
in principle reject, but whose every close outcome is caught inside the body,
so it always resolves with the collected close events. -/
def cleanupRun (cenv : CloseEnv) (clients : DatabaseClients) :
    Except String (List CloseEvent) :=
  Except.ok (cleanupEvents cenv clients)

/-- The backend kinds whose slots are non-empty among the three that have a
native close call; InfluxDB is deliberately absent. -/
def closeTargets (clients : DatabaseClients) : List BackendKind :=
  (if clients.postgres.isSome then [BackendKind.postgres] else []) ++
  (if clients.redis.isSome then [BackendKind.redis] else []) ++
  (if clients.mongodb.isSome then [BackendKind.mongodb] else [])

/-- The expiry test of `cleanupExpiredSessions`:
`now.getTime() - session.createdAt.getTime() > maxAgeMs` (strict). -/
def expiredB (now maxAgeMs : Nat) (s : DatabaseSession) : Bool :=
  decide ((now : Int) - (s.createdAt : Int) > (maxAgeMs : Int))

/-- First loop of `cleanupExpiredSessions`: collect the ids of the expired
entries, in registry iteration order. -/
def expiredSessionIds (now maxAgeMs : Nat) (sessions : Registry) : List String :=
  (sessions.filter (fun p => expiredB now maxAgeMs p.2)).map Prod.fst

/-- Second loop of `cleanupExpiredSessions`: for each collected id, re-fetch
the session (skip if absent), then `try \x7b await cleanup; delete; log \x7d
catch \x7b log \x7d` — if cleanup rejected, the delete would be skipped and
the loop would continue with the next id. -/
def sweepLoop (cenv : CloseEnv) (ids : List String) (sessions : Registry) :
    Registry × List (String × List CloseEvent) :=
  match ids with
  | [] => (sessions, [])
  | id :: rest =>
    match regFind? sessions id with
    | none => sweepLoop cenv rest sessions
    | some s =>
      match cleanupRun cenv s.clients with
      | Except.ok evs =>
        let out := sweepLoop cenv rest (regDelete sessions id)
        (out.1, (id, evs) :: out.2)
      | Except.error _ => sweepLoop cenv rest sessions

/-- `cleanupExpiredSessions(sessions, maxAgeMs)`: collect the expired ids at
call time, then clean up and delete each of them.  Returns the final registry
together with the per-session close events. -/
def cleanupExpiredSessions (cenv : CloseEnv) (now : Nat) (sessions : Registry)
    (maxAgeMs : Nat) : Registry × List (String × List CloseEvent) :=
  sweepLoop cenv (expiredSessionIds now maxAgeMs sessions) sessions

/-- The single text content block a tool handler returns, classified by how
the source builds it: a plain template-literal string (the Redis handlers), a
`JSON.stringify(\x7b error, success: false \x7d)` failure envelope, or the
`JSON.stringify(\x7b rowCount, rows, success: true \x7d)` success payload of
`postgres_query`. -/
inductive ToolText
  | plain (text : String)
  | jsonFail (errorMsg : String)
  | jsonOkQuery (rowCount : Int) (rows : List String)
  deriving DecidableEq, Repr

/-- Whether a response is the `success: false` JSON failure envelope. -/
def isFailureEnvelope : ToolText → Bool
  | ToolText.jsonFail _ => true
  | _ => false

/-- Result of `await session.clients.postgres.query(...)`. -/
structure PgQueryResult where
  rowCount : Int
  rows : List String
  deriving DecidableEq, Repr

/-- The `postgres_query` tool handler of `src/tools/postgres.ts`: resolve the
`default` session, throw if the PostgreSQL slot is empty, run the query, and
wrap result or caught error in the `success` JSON envelope.  `queryOutcome`
is the outcome the driver would produce for the query. -/
def postgresQueryTool (env : ConnEnv) (now : Nat) (config : DatabaseConfig)
    (sessions : Registry) (queryOutcome : Except String PgQueryResult) :
    ToolText × Registry :=
  let r := getOrCreateSession env now "default" config sessions
  match r.1.clients.postgres with
  | none => (ToolText.jsonFail "PostgreSQL client not available", r.2.1)
  | some _ =>
    match queryOutcome with
    | Except.ok res => (ToolText.jsonOkQuery res.rowCount res.rows, r.2.1)
    | Except.error m => (ToolText.jsonFail m, r.2.1)

/-- The `redis_execute_command` tool handler of `src/tools/redis.ts`: resolve
the `default` session, throw if the Redis slot is empty, run the command, and
render result or caught error as a plain template-literal string (note: not
the JSON envelope). -/
def redisExecuteCommandTool (env : ConnEnv) (now : Nat) (config : DatabaseConfig)
    (sessions : Registry) (callOutcome : Except String String) :
    ToolText × Registry :=
  let r := getOrCreateSession env now "default" config sessions
  match r.1.clients.redis with
  | none =>
    (ToolText.plain "Failed to execute Redis command: Redis client not available", r.2.1)
  | some _ =>
    match callOutcome with
    | Except.ok v => (ToolText.plain ("Redis command result: " ++ v), r.2.1)
    | Except.error m => (ToolText.plain ("Failed to execute Redis command: " ++ m), r.2.1)

/-- The JSON document of the `connection-status` resource of
`src/resources/index.ts`: per backend, the enabled flag from the configuration
and whether the `default` session's slot is populated. -/
structure ConnectionStatus where
  postgresEnabled : Bool
  postgresConnected : Bool
  redisEnabled : Bool
  redisConnected : Bool
  mongodbEnabled : Bool
  mongodbConnected : Bool
  influxdbEnabled : Bool
  influxdbConnected : Bool
  deriving DecidableEq, Repr

/-- The `connection-status` resource read handler: resolve the `default`
session and report, per backend, enablement and slot population; it only
reads the session. -/
def connectionStatusResource (env : ConnEnv) (now : Nat) (config : DatabaseConfig)
    (sessions : Registry) : ConnectionStatus × Registry :=
  let r := getOrCreateSession env now "default" config sessions
  ({ postgresEnabled := true
     postgresConnected := r.1.clients.postgres.isSome
     redisEnabled := (match config.redis with | some x => x.enabled | none => false)
     redisConnected := r.1.clients.redis.isSome
     mongodbEnabled := (match config.mongodb with | some x => x.enabled | none => false)
     mongodbConnected := r.1.clients.mongodb.isSome
     influxdbEnabled := (match config.influxdb with | some x => x.enabled | none => false)
     influxdbConnected := r.1.clients.influxdb.isSome }, r.2.1)

/-- The fixed order in which `initializeSessionClients` considers the backends. -/
def backendOrder : List BackendKind :=
  [BackendKind.postgres, BackendKind.redis, BackendKind.mongodb, BackendKind.influxdb]

/-- The guard of each backend's initialization block, by kind. -/
def backendGuard (config : DatabaseConfig) : BackendKind → Bool
  | BackendKind.postgres => pgGuard config
  | BackendKind.redis => redisGuard config
  | BackendKind.mongodb => mongoGuard config
  | BackendKind.influxdb => influxGuard config

/-- The `enabled` flag of each backend in the configuration (false when the
optional backend configuration is absent). -/
def backendEnabled (config : DatabaseConfig) : BackendKind → Bool
  | BackendKind.postgres => config.postgres.enabled
  | BackendKind.redis => (match config.redis with | some r => r.enabled | none => false)
  | BackendKind.mongodb => (match config.mongodb with | some m => m.enabled | none => false)
  | BackendKind.influxdb => (match config.influxdb with | some i => i.enabled | none => false)

/-- Whether the slot of the given backend kind is populated. -/
def clientSlotIsSome (c : DatabaseClients) : BackendKind → Bool
  | BackendKind.postgres => c.postgres.isSome
  | BackendKind.redis => c.redis.isSome
  | BackendKind.mongodb => c.mongodb.isSome
  | BackendKind.influxdb => c.influxdb.isSome

/-- The kinds whose connection attempts were started, in trace order. -/
def startKinds (t : List ConnEvent) : List BackendKind :=
  t.filterMap (fun e =>
    match e with
    | ConnEvent.attemptStart k => some k
    | _ => none)

/-- A trace is sequential when it is a run of attempts in which each started
attempt completes (its done event follows immediately) before any other
attempt starts: no interleaving, no concurrent fan-out. -/
def seqTrace : List ConnEvent → Bool
  | [] => true
  | ConnEvent.attemptStart k :: ConnEvent.attemptDone k' _ :: rest =>
    (k == k') && seqTrace rest
  | _ => false

/-- Fixture: an environment in which every connection and close succeeds. -/
def envAllOk : ConnEnv :=
  { pgOk := true, redisOk := true, mongoOk := true, influxReachable := true }

/-- Fixture: an environment in which only the Redis connection attempt fails. -/
def envRedisDown : ConnEnv :=
  { pgOk := true, redisOk := false, mongoOk := true, influxReachable := true }

/-- Fixture: every close attempt succeeds. -/
def cenvAllOk : CloseEnv :=
  { pgCloseOk := true, redisCloseOk := true, mongoCloseOk := true }

/-- Fixture: a configuration with only Redis enabled (with a url). -/
def cfgRedisOnly : DatabaseConfig :=
  { postgres := { enabled := false, url := none }
    redis := some { enabled := true, url := some "redis://localhost:6379" }
    mongodb := none
    influxdb := none }

/-- Fixture: a configuration with PostgreSQL and Redis enabled with urls. -/
def cfgPgRedis : DatabaseConfig :=
  { postgres := { enabled := true, url := some "postgres://localhost:5432/db" }
    redis := some { enabled := true, url := some "redis://localhost:6379" }
    mongodb := none
    influxdb := none }

/-- Fixture: a configuration with Redis disabled although its url is present. -/
def cfgRedisDisabledWithUrl : DatabaseConfig :=
  { postgres := { enabled := false, url := none }
    redis := some { enabled := false, url := some "redis://localhost:6379" }
    mongodb := none
    influxdb := none }

/-- Fixture: a configuration with InfluxDB enabled, url and token both present
and truthy, but the url lacking an `http(s)` protocol. -/
def cfgInfluxBadUrl : DatabaseConfig :=
  { postgres := { enabled := false, url := none }
    redis := none
    mongodb := none
    influxdb := some { enabled := true, url := some "localhost:8086",
                       token := some "secret-token", org := none, bucket := none } }

/-- Fixture: a session with one populated Redis slot. -/
def sessionRedisW : DatabaseSession :=
  { id := "a", createdAt := 0, clients :=
      { postgres := none, redis := some { url := "redis://localhost:6379" },
        mongodb := none, influxdb := none } }

/-- Fixture: a fresh session with no clients. -/
def sessionFreshW : DatabaseSession :=
  { id := "b", createdAt := 1000, clients := emptyClients }

/-- Fixture: a registry holding an old session `a` and a fresh session `b`. -/
def registryW : Registry :=
  [("a", sessionRedisW), ("b", sessionFreshW)]

section InitLemmas

variable (env : ConnEnv) (config : DatabaseConfig) (c : DatabaseClients)

lemma initPostgres_fst_postgres :
    ((initPostgres env config c).1).postgres =
      if pgGuard config && env.pgOk then
        some { connectionString := pgCfgUrl config,
               sslDisabled := strIncludes (pgCfgUrl config) "localhost" }
      else c.postgres := by
  unfold initPostgres pgConnect
  cases hg : pgGuard config <;> cases he : env.pgOk <;> simp [hg, he]

lemma initPostgres_fst_redis : ((initPostgres env config c).1).redis = c.redis := by
  unfold initPostgres pgConnect
  cases hg : pgGuard config <;> cases he : env.pgOk <;> simp [hg, he]

lemma initPostgres_fst_mongodb : ((initPostgres env config c).1).mongodb = c.mongodb := by
  unfold initPostgres pgConnect
  cases hg : pgGuard config <;> cases he : env.pgOk <;> simp [hg, he]

lemma initPostgres_fst_influxdb : ((initPostgres env config c).1).influxdb = c.influxdb := by
  unfold initPostgres pgConnect
  cases hg : pgGuard config <;> cases he : env.pgOk <;> simp [hg, he]

lemma initPostgres_snd :
    (initPostgres env config c).2 =
      if pgGuard config then attemptBlock BackendKind.postgres env.pgOk else [] := by
  unfold initPostgres pgConnect
  cases hg : pgGuard config <;> cases he : env.pgOk <;> simp [hg, he]

lemma initRedis_fst_redis :
    ((initRedis env config c).1).redis =
      if redisGuard config && env.redisOk then some { url := redisCfgUrl config }
      else c.redis := by
  unfold initRedis redisConnect
  cases hg : redisGuard config <;> cases he : env.redisOk <;> simp [hg, he]

lemma initRedis_fst_postgres : ((initRedis env config c).1).postgres = c.postgres := by
  unfold initRedis redisConnect
  cases hg : redisGuard config <;> cases he : env.redisOk <;> simp [hg, he]

lemma initRedis_fst_mongodb : ((initRedis env config c).1).mongodb = c.mongodb := by
  unfold initRedis redisConnect
  cases hg : redisGuard config <;> cases he : env.redisOk <;> simp [hg, he]

lemma initRedis_fst_influxdb : ((initRedis env config c).1).influxdb = c.influxdb := by
  unfold initRedis redisConnect
  cases hg : redisGuard config <;> cases he : env.redisOk <;> simp [hg, he]

lemma initRedis_snd :
    (initRedis env config c).2 =
      if redisGuard config then attemptBlock BackendKind.redis env.redisOk else [] := by
  unfold initRedis redisConnect
  cases hg : redisGuard config <;> cases he : env.redisOk <;> simp [hg, he]

lemma initMongo_fst_mongodb :
    ((initMongo env config c).1).mongodb =
      if mongoGuard config && env.mongoOk then some { url := mongoCfgUrl config }
      else c.mongodb := by
  unfold initMongo mongoConnect
  cases hg : mongoGuard config <;> cases he : env.mongoOk <;> simp [hg, he]

lemma initMongo_fst_postgres : ((initMongo env config c).1).postgres = c.postgres := by
  unfold initMongo mongoConnect
  cases hg : mongoGuard config <;> cases he : env.mongoOk <;> simp [hg, he]

lemma initMongo_fst_redis : ((initMongo env config c).1).redis = c.redis := by
  unfold initMongo mongoConnect
  cases hg : mongoGuard config <;> cases he : env.mongoOk <;> simp [hg, he]

lemma initMongo_fst_influxdb : ((initMongo env config c).1).influxdb = c.influxdb := by
  unfold initMongo mongoConnect
  cases hg : mongoGuard config <;> cases he : env.mongoOk <;> simp [hg, he]

lemma initMongo_snd :
    (initMongo env config c).2 =
      if mongoGuard config then attemptBlock BackendKind.mongodb env.mongoOk else [] := by
  unfold initMongo mongoConnect
  cases hg : mongoGuard config <;> cases he : env.mongoOk <;> simp [hg, he]

lemma initInflux_fst_influxdb :
    ((initInflux env config c).1).influxdb =
      if influxGuard config && urlSupportedProtocol (influxCfgUrl config) then
        some { url := influxCfgUrl config, token := influxCfgToken config }
      else c.influxdb := by
  unfold initInflux influxClientNew
  cases hg : influxGuard config <;>
    cases hs : urlSupportedProtocol (influxCfgUrl config) <;> simp [hg, hs]

lemma initInflux_fst_postgres : ((initInflux env config c).1).postgres = c.postgres := by
  unfold initInflux influxClientNew
  cases hg : influxGuard config <;>
    cases hs : urlSupportedProtocol (influxCfgUrl config) <;> simp [hg, hs]

lemma initInflux_fst_redis : ((initInflux env config c).1).redis = c.redis := by
  unfold initInflux influxClientNew
  cases hg : influxGuard config <;>
    cases hs : urlSupportedProtocol (influxCfgUrl config) <;> simp [hg, hs]

lemma initInflux_fst_mongodb : ((initInflux env config c).1).mongodb = c.mongodb := by
  unfold initInflux influxClientNew
  cases hg : influxGuard config <;>
    cases hs : urlSupportedProtocol (influxCfgUrl config) <;> simp [hg, hs]

lemma initInflux_snd :
    (initInflux env config c).2 =
      if influxGuard config then
        attemptBlock BackendKind.influxdb (urlSupportedProtocol (influxCfgUrl config))
      else [] := by
  unfold initInflux influxClientNew
  cases hg : influxGuard config <;>
    cases hs : urlSupportedProtocol (influxCfgUrl config) <;> simp [hg, hs]

lemma init_clients_postgres :
    ((initializeSessionClients env config).1).postgres =
      if pgGuard config && env.pgOk then
        some { connectionString := pgCfgUrl config,
               sslDisabled := strIncludes (pgCfgUrl config) "localhost" }
      else none := by
  simp [initializeSessionClients, initInflux_fst_postgres, initMongo_fst_postgres,
    initRedis_fst_postgres, initPostgres_fst_postgres, emptyClients]

lemma init_clients_redis :
    ((initializeSessionClients env config).1).redis =
      if redisGuard config && env.redisOk then some { url := redisCfgUrl config }
      else none := by
  simp [initializeSessionClients, initInflux_fst_redis, initMongo_fst_redis,
    initRedis_fst_redis, initPostgres_fst_redis, emptyClients]

lemma init_clients_mongodb :
    ((initializeSessionClients env config).1).mongodb =
      if mongoGuard config && env.mongoOk then some { url := mongoCfgUrl config }
      else none := by
  simp [initializeSessionClients, initInflux_fst_mongodb, initMongo_fst_mongodb,
    initRedis_fst_mongodb, initPostgres_fst_mongodb, emptyClients]

lemma init_clients_influxdb :
    ((initializeSessionClients env config).1).influxdb =
      if influxGuard config && urlSupportedProtocol (influxCfgUrl config) then
        some { url := influxCfgUrl config, token := influxCfgToken config }
      else none := by
  simp [initializeSessionClients, initInflux_fst_influxdb, initMongo_fst_influxdb,
    initRedis_fst_influxdb, initPostgres_fst_influxdb, emptyClients]

lemma init_trace :
    (initializeSessionClients env config).2 =
      (if pgGuard config then attemptBlock BackendKind.postgres env.pgOk else []) ++
      (if redisGuard config then attemptBlock BackendKind.redis env.redisOk else []) ++
      (if mongoGuard config then attemptBlock BackendKind.mongodb env.mongoOk else []) ++
      (if influxGuard config then
        attemptBlock BackendKind.influxdb (urlSupportedProtocol (influxCfgUrl config))
      else []) := by
  simp [initializeSessionClients, initPostgres_snd, initRedis_snd, initMongo_snd,
    initInflux_snd]

lemma startKinds_init :
    startKinds (initializeSessionClients env config).2 =
      backendOrder.filter (backendGuard config) := by
  rw [init_trace]
  cases h1 : pgGuard config <;> cases h2 : redisGuard config <;>
    cases h3 : mongoGuard config <;> cases h4 : influxGuard config <;>
    simp [startKinds, attemptBlock, backendOrder, backendGuard, h1, h2, h3, h4]

lemma seqTrace_init :
    seqTrace (initializeSessionClients env config).2 = true := by
  rw [init_trace]
  cases h1 : pgGuard config <;> cases h2 : redisGuard config <;>
    cases h3 : mongoGuard config <;> cases h4 : influxGuard config <;>
    simp [seqTrace, attemptBlock, h1, h2, h3, h4]

end InitLemmas

section RegistryLemmas

lemma regFind?_regSet_self (r : Registry) (id : String) (s : DatabaseSession) :
    regFind? (regSet r id s) id = some s := by
  induction r with
  | nil => simp [regSet, regFind?]
  | cons p rest ih =>
    obtain ⟨k, v⟩ := p
    by_cases h : k = id
    · simp [regSet, regFind?, h]
    · simp [regSet, regFind?, h, ih]

lemma regFind?_regSet_ne (r : Registry) (id id' : String) (s : DatabaseSession)
    (hne : id' ≠ id) : regFind? (regSet r id s) id' = regFind? r id' := by
  have hne' : id ≠ id' := Ne.symm hne
  induction r with
  | nil => simp [regSet, regFind?, hne']
  | cons p rest ih =>
    obtain ⟨k, v⟩ := p
    by_cases h : k = id
    · subst h
      simp [regSet, regFind?, hne']
    · simp [regSet, regFind?, h, ih]

lemma regDelete_of_regFind?_none (r : Registry) (id : String)
    (h : regFind? r id = none) : regDelete r id = r := by
  induction r with
  | nil => rfl
  | cons p rest ih =>
    obtain ⟨k, v⟩ := p
    by_cases hk : k = id
    · simp [regFind?, hk] at h
    · simp only [regFind?, beq_iff_eq, if_neg hk] at h
      simp [regDelete, hk, ih h]

lemma regDelete_sublist (r : Registry) (id : String) : (regDelete r id).Sublist r := by
  induction r with
  | nil => simp [regDelete]
  | cons p rest ih =>
    obtain ⟨k, v⟩ := p
    by_cases hk : k = id
    · simp [regDelete, hk]
    · simpa [regDelete, hk] using ih.cons₂ (k, v)

lemma regDelete_keys_nodup (r : Registry) (id : String)
    (h : (r.map Prod.fst).Nodup) : ((regDelete r id).map Prod.fst).Nodup :=
  ((regDelete_sublist r id).map Prod.fst).nodup h

lemma regFind?_isSome_iff_mem_keys (r : Registry) (id : String) :
    (regFind? r id).isSome = true ↔ id ∈ r.map Prod.fst := by
  induction r with
  | nil => simp [regFind?]
  | cons p rest ih =>
    obtain ⟨k, v⟩ := p
    by_cases h : k = id
    · simp [regFind?, h]
    · have h' : ¬ id = k := fun hh => h hh.symm
      simp [regFind?, h, ih, h']

lemma regFind?_none_of_not_mem_keys (r : Registry) (id : String)
    (h : id ∉ r.map Prod.fst) : regFind? r id = none := by
  have := (regFind?_isSome_iff_mem_keys r id).not.mpr h
  exact Option.not_isSome_iff_eq_none.mp this

lemma regFind?_mem (r : Registry) (id : String) (s : DatabaseSession)
    (h : regFind? r id = some s) : (id, s) ∈ r := by
  induction r with
  | nil => simp [regFind?] at h
  | cons p rest ih =>
    obtain ⟨k, v⟩ := p
    by_cases hk : k = id
    · simp only [regFind?, beq_iff_eq, if_pos hk, Option.some.injEq] at h
      subst hk h
      exact List.mem_cons_self _ _
    · simp only [regFind?, beq_iff_eq, if_neg hk] at h
      exact List.mem_cons_of_mem _ (ih h)

lemma regFind?_regDelete_ne (r : Registry) (x id : String) (hne : x ≠ id) :
    regFind? (regDelete r x) id = regFind? r id := by
  have hne' : id ≠ x := Ne.symm hne
  induction r with
  | nil => rfl
  | cons p rest ih =>
    obtain ⟨k, v⟩ := p
    by_cases hk : k = x
    · subst hk
      simp [regDelete, regFind?, hne]
    · by_cases hk' : k = id
      · subst hk'
        simp [regDelete, regFind?, hk, hne']
      · simp [regDelete, regFind?, hk, hk', ih]

lemma regFind?_regDelete_self_of_nodup (r : Registry) (id : String)
    (h : (r.map Prod.fst).Nodup) : regFind? (regDelete r id) id = none := by
  induction r with
  | nil => rfl
  | cons p rest ih =>
    obtain ⟨k, v⟩ := p
    simp only [List.map_cons, List.nodup_cons] at h
    by_cases hk : k = id
    · subst hk
      simp only [regDelete, beq_iff_eq, if_pos rfl]
      exact regFind?_none_of_not_mem_keys rest k h.1
    · simp [regDelete, regFind?, hk, ih h.2]

lemma mem_keys_regDelete (r : Registry) (x id : String) (hne : id ≠ x)
    (h : id ∈ r.map Prod.fst) : id ∈ (regDelete r x).map Prod.fst := by
  induction r with
  | nil => simp at h
  | cons p rest ih =>
    obtain ⟨k, v⟩ := p
    simp only [List.map_cons, List.mem_cons] at h
    by_cases hk : k = x
    · rcases h with h | h
      · exact absurd (h.trans hk) hne
      · simpa [regDelete, hk] using h
    · rcases h with h | h
      · simp [regDelete, hk, h]
      · simp [regDelete, hk, ih h]

lemma regKeys_inj {r : Registry} (h : (r.map Prod.fst).Nodup)
    {p q : String × DatabaseSession} (hp : p ∈ r) (hq : q ∈ r) (hk : p.1 = q.1) :
    p = q := by
  induction r with
  | nil => simp at hp
  | cons a rest ih =>
    simp only [List.map_cons, List.nodup_cons] at h
    rcases List.mem_cons.mp hp with hp' | hp' <;> rcases List.mem_cons.mp hq with hq' | hq'
    · rw [hp', hq']
    · exfalso
      apply h.1
      rw [hp'] at hk
      exact hk ▸ List.mem_map_of_mem Prod.fst hq'
    · exfalso
      apply h.1
      rw [hq'] at hk
      exact hk ▸ List.mem_map_of_mem Prod.fst hp'
    · exact ih h.2 hp' hq'

lemma regDelete_eq_filter (r : Registry) (id : String)
    (h : (r.map Prod.fst).Nodup) :
    regDelete r id = r.filter (fun p => !(p.1 == id)) := by
  induction r with
  | nil => rfl
  | cons p rest ih =>
    obtain ⟨k, v⟩ := p
    simp only [List.map_cons, List.nodup_cons] at h
    by_cases hk : k = id
    · subst hk
      have : rest.filter (fun p => !(p.1 == k)) = rest := by
        refine List.filter_eq_self.mpr ?_
        intro a ha
        simp only [Bool.not_eq_true', beq_eq_false_iff_ne, ne_eq]
        intro hak
        exact h.1 (hak ▸ List.mem_map_of_mem Prod.fst ha)
      simp [regDelete, List.filter_cons, this]
    · simp [regDelete, List.filter_cons, hk, ih h.2]

lemma regFind?_filter_of_nodup (r : Registry) (id : String) (s : DatabaseSession)
    (pred : String × DatabaseSession → Bool)
    (hnd : (r.map Prod.fst).Nodup) (h : regFind? r id = some s) :
    regFind? (r.filter pred) id = some s ∨ regFind? (r.filter pred) id = none := by
  induction r with
  | nil => simp [regFind?] at h
  | cons p rest ih =>
    obtain ⟨k, v⟩ := p
    simp only [List.map_cons, List.nodup_cons] at hnd
    by_cases hk : k = id
    · subst hk
      simp only [regFind?, beq_self_eq_true, if_true, Option.some.injEq] at h
      subst h
      cases hp : pred (k, v)
      · right
        rw [List.filter_cons, hp]
        simp only [Bool.false_eq_true, if_false]
        refine regFind?_none_of_not_mem_keys _ _ ?_
        intro hmem
        obtain ⟨q, hq, hqk⟩ := List.mem_map.mp hmem
        exact hnd.1 (hqk ▸ List.mem_map_of_mem Prod.fst (List.mem_filter.mp hq).1)
      · left
        rw [List.filter_cons, hp]
        simp [regFind?]
    · simp only [regFind?, beq_iff_eq, if_neg hk] at h
      cases hp : pred (k, v)
      · rw [List.filter_cons, hp]
        simp only [Bool.false_eq_true, if_false]
        exact ih hnd.2 h
      · rw [List.filter_cons, hp]
        simp only [if_true]
        have := ih hnd.2 h
        rcases this with h' | h'
        · left
          simp [regFind?, hk, h']
        · right
          simp [regFind?, hk, h']

end RegistryLemmas

section SweepLemmas

lemma sweepLoop_fst (cenv : CloseEnv) (ids : List String) (r : Registry) :
    (sweepLoop cenv ids r).1 = ids.foldl (fun acc i => regDelete acc i) r := by
  induction ids generalizing r with
  | nil => rfl
  | cons id rest ih =>
    cases hf : regFind? r id with
    | none =>
      simp [sweepLoop, hf, ih, regDelete_of_regFind?_none r id hf]
    | some s =>
      simp [sweepLoop, hf, cleanupRun, ih]

lemma sweepLoop_snd_keys (cenv : CloseEnv) (ids : List String) (r : Registry)
    (hnd : ids.Nodup) (hsub : ∀ i ∈ ids, i ∈ r.map Prod.fst) :
    ((sweepLoop cenv ids r).2).map Prod.fst = ids := by
  induction ids generalizing r with
  | nil => rfl
  | cons id rest ih =>
    obtain ⟨s, hs⟩ := Option.isSome_iff_exists.mp
      ((regFind?_isSome_iff_mem_keys r id).mpr (hsub id (List.mem_cons_self id rest)))
    have hnd' := List.nodup_cons.mp hnd
    have hsub' : ∀ i ∈ rest, i ∈ (regDelete r id).map Prod.fst := by
      intro i hi
      exact mem_keys_regDelete r id i (fun h => hnd'.1 (h ▸ hi))
        (hsub i (List.mem_cons_of_mem id hi))
    simp [sweepLoop, hs, cleanupRun, ih (regDelete r id) hnd'.2 hsub']

lemma foldl_regDelete_eq_filter (ids : List String) (r : Registry)
    (h : (r.map Prod.fst).Nodup) :
    ids.foldl (fun acc i => regDelete acc i) r =
      r.filter (fun p => !(ids.contains p.1)) := by
  induction ids generalizing r with
  | nil => simp
  | cons id rest ih =>
    have h1 : regDelete r id = r.filter (fun p => !(p.1 == id)) :=
      regDelete_eq_filter r id h
    have h2 : ((regDelete r id).map Prod.fst).Nodup := regDelete_keys_nodup r id h
    calc (id :: rest).foldl (fun acc i => regDelete acc i) r
        = rest.foldl (fun acc i => regDelete acc i) (regDelete r id) := rfl
      _ = (regDelete r id).filter (fun p => !(rest.contains p.1)) := ih _ h2
      _ = (r.filter (fun p => !(p.1 == id))).filter (fun p => !(rest.contains p.1)) := by
          rw [h1]
      _ = r.filter (fun p => !(rest.contains p.1) && !(p.1 == id)) :=
          List.filter_filter _ _
      _ = r.filter (fun p => !((id :: rest).contains p.1)) := by
          refine List.filter_congr ?_
          intro x hx
          by_cases hxx : x.1 = id <;>
            simp [List.contains_cons, Bool.not_or, Bool.and_comm, hxx]

lemma expiredSessionIds_nodup (now maxAgeMs : Nat) (sessions : Registry)
    (h : (sessions.map Prod.fst).Nodup) :
    (expiredSessionIds now maxAgeMs sessions).Nodup := by
  have hsub : ((sessions.filter (fun p => expiredB now maxAgeMs p.2)).map Prod.fst).Sublist
      (sessions.map Prod.fst) := (List.filter_sublist sessions).map Prod.fst
  exact hsub.nodup h

lemma expiredSessionIds_subset_keys (now maxAgeMs : Nat) (sessions : Registry) :
    ∀ i ∈ expiredSessionIds now maxAgeMs sessions, i ∈ sessions.map Prod.fst := by
  intro i hi
  obtain ⟨p, hp, hpi⟩ := List.mem_map.mp hi
  exact hpi ▸ List.mem_map_of_mem Prod.fst (List.mem_filter.mp hp).1

lemma mem_expiredSessionIds_iff (now maxAgeMs : Nat) (sessions : Registry)
    (h : (sessions.map Prod.fst).Nodup) (p : String × DatabaseSession)
    (hp : p ∈ sessions) :
    p.1 ∈ expiredSessionIds now maxAgeMs sessions ↔
      expiredB now maxAgeMs p.2 = true := by
  constructor
  · intro hmem
    obtain ⟨q, hq, hqi⟩ := List.mem_map.mp hmem
    obtain ⟨hq1, hq2⟩ := List.mem_filter.mp hq
    have : q = p := regKeys_inj h hq1 hp hqi
    exact this ▸ hq2
  · intro he
    exact List.mem_map_of_mem Prod.fst (List.mem_filter.mpr ⟨hp, he⟩)

lemma cleanupExpiredSessions_fst (cenv : CloseEnv) (now maxAgeMs : Nat)
    (sessions : Registry) (h : (sessions.map Prod.fst).Nodup) :
    (cleanupExpiredSessions cenv now sessions maxAgeMs).1 =
      sessions.filter (fun p => !(expiredB now maxAgeMs p.2)) := by
  rw [cleanupExpiredSessions, sweepLoop_fst, foldl_regDelete_eq_filter _ _ h]
  refine List.filter_congr ?_
  intro p hp
  have hiff := mem_expiredSessionIds_iff now maxAgeMs sessions h p hp
  by_cases he : expiredB now maxAgeMs p.2 = true
  · simp [he, hiff.mpr he]
  · have hb : expiredB now maxAgeMs p.2 = false := by
      cases hfe : expiredB now maxAgeMs p.2
      · rfl
      · exact absurd hfe he
    have hm : ¬ p.1 ∈ expiredSessionIds now maxAgeMs sessions :=
      fun hmm => he (hiff.mp hmm)
    simp [hb, hm]

lemma cleanupExpiredSessions_snd_keys (cenv : CloseEnv) (now maxAgeMs : Nat)
    (sessions : Registry) (h : (sessions.map Prod.fst).Nodup) :
    ((cleanupExpiredSessions cenv now sessions maxAgeMs).2).map Prod.fst =
      expiredSessionIds now maxAgeMs sessions := by
  rw [cleanupExpiredSessions]
  exact sweepLoop_snd_keys cenv _ sessions
    (expiredSessionIds_nodup now maxAgeMs sessions h)
    (expiredSessionIds_subset_keys now maxAgeMs sessions)

end SweepLemmas

section CleanupLemmas

lemma tryClose_kind (k : BackendKind) (r : Except String Unit) :
    (tryClose k r).map CloseEvent.kind = [k] := by
  cases r <;> rfl

lemma cleanupEvents_map_kind (cenv : CloseEnv) (clients : DatabaseClients) :
    (cleanupEvents cenv clients).map CloseEvent.kind = closeTargets clients := by
  obtain ⟨pg, rd, mg, ix⟩ := clients
  cases pg <;> cases rd <;> cases mg <;>
    simp [cleanupEvents, closeTargets, tryClose_kind]

lemma influx_not_mem_closeTargets (clients : DatabaseClients) :
    BackendKind.influxdb ∉ closeTargets clients := by
  obtain ⟨pg, rd, mg, ix⟩ := clients
  cases pg <;> cases rd <;> cases mg <;> simp [closeTargets]

end CleanupLemmas

section DispatchLemmas

lemma getOrCreateSession_found (env : ConnEnv) (now : Nat) (sessionId : String)
    (config : DatabaseConfig) (sessions : Registry) (s : DatabaseSession)
    (h : regFind? sessions sessionId = some s) :
    getOrCreateSession env now sessionId config sessions = (s, sessions, []) := by
  simp [getOrCreateSession, h]

lemma regFind?_getOrCreateSession_self (env : ConnEnv) (now : Nat)
    (sessionId : String) (config : DatabaseConfig) (sessions : Registry) :
    regFind? (getOrCreateSession env now sessionId config sessions).2.1 sessionId =
      some (getOrCreateSession env now sessionId config sessions).1 := by
  cases hf : regFind? sessions sessionId with
  | some s => simp [getOrCreateSession, hf]
  | none => simp [getOrCreateSession, hf, regFind?_regSet_self]

lemma getOrCreateSession_preserves (env : ConnEnv) (now : Nat) (otherId : String)
    (config : DatabaseConfig) (sessions : Registry) (id : String)
    (s : DatabaseSession) (h : regFind? sessions id = some s) :
    regFind? (getOrCreateSession env now otherId config sessions).2.1 id = some s := by
  cases hf : regFind? sessions otherId with
  | some s' => simp [getOrCreateSession, hf, h]
  | none =>
    by_cases hid : id = otherId
    · subst hid
      rw [hf] at h
      cases h
    · have hrw := regFind?_regSet_ne sessions otherId id
        ((createDatabaseSession env now otherId config).1) hid
      simp [getOrCreateSession, hf, hrw, h]

lemma postgresQueryTool_snd (env : ConnEnv) (now : Nat) (config : DatabaseConfig)
    (sessions : Registry) (q : Except String PgQueryResult) :
    (postgresQueryTool env now config sessions q).2 =
      (getOrCreateSession env now "default" config sessions).2.1 := by
  simp only [postgresQueryTool]
  split
  · rfl
  · split <;> rfl

lemma redisExecuteCommandTool_snd (env : ConnEnv) (now : Nat)
    (config : DatabaseConfig) (sessions : Registry) (c : Except String String) :
    (redisExecuteCommandTool env now config sessions c).2 =
      (getOrCreateSession env now "default" config sessions).2.1 := by
  simp only [redisExecuteCommandTool]
  split
  · rfl
  · split <;> rfl

lemma connectionStatusResource_snd (env : ConnEnv) (now : Nat)
    (config : DatabaseConfig) (sessions : Registry) :
    (connectionStatusResource env now config sessions).2 =
      (getOrCreateSession env now "default" config sessions).2.1 := rfl

end DispatchLemmas

/-- C1 (counterexample): with Redis enabled in the configuration but its
connection attempt failing, the `redis_execute_command` handler catches the
`Redis client not available` error and returns a plain template-literal text,
not the `success: false` JSON envelope — so not every caught error produces
the uniform failure envelope. -/
theorem redis_error_response_not_envelope :
    (redisExecuteCommandTool envRedisDown 0 cfgRedisOnly [] (Except.ok "PONG")).1 =
      ToolText.plain "Failed to execute Redis command: Redis client not available" ∧
    isFailureEnvelope
      (redisExecuteCommandTool envRedisDown 0 cfgRedisOnly [] (Except.ok "PONG")).1 =
      false := by
  constructor <;> rfl

/-- C1 (amended): every caught error in a tool handler yields a well-formed
single text response carrying a human-readable message, but the shape is not
uniform across tools: the `postgres_query` handler returns the JSON
`success: false` envelope, while the Redis handler returns a plain
`Failed to execute Redis command: ...` string that is not a failure envelope. -/
theorem tool_error_text_not_uniform_envelope (env : ConnEnv) (now : Nat)
    (config : DatabaseConfig) (sessions : Registry) (m : String)
    (q : Except String PgQueryResult) (c : Except String String) :
    ((getOrCreateSession env now "default" config sessions).1.clients.postgres = none →
      (postgresQueryTool env now config sessions q).1 =
        ToolText.jsonFail "PostgreSQL client not available") ∧
    ((getOrCreateSession env now "default" config sessions).1.clients.postgres ≠ none →
      (postgresQueryTool env now config sessions (Except.error m)).1 =
        ToolText.jsonFail m) ∧
    ((getOrCreateSession env now "default" config sessions).1.clients.redis = none →
      (redisExecuteCommandTool env now config sessions c).1 =
        ToolText.plain "Failed to execute Redis command: Redis client not available") ∧
    ((getOrCreateSession env now "default" config sessions).1.clients.redis ≠ none →
      (redisExecuteCommandTool env now config sessions (Except.error m)).1 =
        ToolText.plain ("Failed to execute Redis command: " ++ m)) ∧
    (∀ msg : String, isFailureEnvelope (ToolText.plain msg) = false) := by
  refine ⟨?_, ?_, ?_, ?_, fun msg => rfl⟩
  · intro h
    simp [postgresQueryTool, h]
  · intro h
    cases hp : (getOrCreateSession env now "default" config sessions).1.clients.postgres with
    | none => exact absurd hp h
    | some x => simp [postgresQueryTool, hp]
  · intro h
    simp [redisExecuteCommandTool, h]
  · intro h
    cases hr : (getOrCreateSession env now "default" config sessions).1.clients.redis with
    | none => exact absurd hr h
    | some x => simp [redisExecuteCommandTool, hr]

/-- C1 (witness): the amended statement at concrete inputs, covering both the
missing-client error paths (all backends down) and the driver-error paths
(clients present, driver call rejects with `boom`). -/
theorem tool_error_text_not_uniform_envelope_witness :
    (postgresQueryTool envRedisDown 0 cfgRedisOnly []
        (Except.ok { rowCount := 0, rows := [] })).1 =
      ToolText.jsonFail "PostgreSQL client not available" ∧
    (redisExecuteCommandTool envRedisDown 0 cfgRedisOnly [] (Except.ok "PONG")).1 =
      ToolText.plain "Failed to execute Redis command: Redis client not available" ∧
    (postgresQueryTool envAllOk 0 cfgPgRedis [] (Except.error "boom")).1 =
      ToolText.jsonFail "boom" ∧
    (redisExecuteCommandTool envAllOk 0 cfgPgRedis [] (Except.error "boom")).1 =
      ToolText.plain ("Failed to execute Redis command: " ++ "boom") :=
  ⟨(tool_error_text_not_uniform_envelope envRedisDown 0 cfgRedisOnly [] "boom"
      (Except.ok { rowCount := 0, rows := [] }) (Except.ok "PONG")).1 (by decide),
   (tool_error_text_not_uniform_envelope envRedisDown 0 cfgRedisOnly [] "boom"
      (Except.ok { rowCount := 0, rows := [] }) (Except.ok "PONG")).2.2.1 (by decide),
   (tool_error_text_not_uniform_envelope envAllOk 0 cfgPgRedis [] "boom"
      (Except.ok { rowCount := 0, rows := [] }) (Except.ok "PONG")).2.1 (by decide),
   (tool_error_text_not_uniform_envelope envAllOk 0 cfgPgRedis [] "boom"
      (Except.ok { rowCount := 0, rows := [] }) (Except.ok "PONG")).2.2.2.1 (by decide)⟩

/-- C2: calling `getOrCreateSession` twice in sequence with the same id and no
intervening cleanup or delete returns the identical session both times: the
second call finds the entry in the registry, returns it and the registry
unchanged, and makes no connection attempts (empty trace). -/
theorem getOrCreateSession_idempotent (env env' : ConnEnv) (now now' : Nat)
    (sessionId : String) (config : DatabaseConfig) (sessions : Registry) :
    (getOrCreateSession env' now' sessionId config
        (getOrCreateSession env now sessionId config sessions).2.1).1 =
      (getOrCreateSession env now sessionId config sessions).1 ∧
    (getOrCreateSession env' now' sessionId config
        (getOrCreateSession env now sessionId config sessions).2.1).2.1 =
      (getOrCreateSession env now sessionId config sessions).2.1 ∧
    (getOrCreateSession env' now' sessionId config
        (getOrCreateSession env now sessionId config sessions).2.1).2.2 = [] := by
  have h := regFind?_getOrCreateSession_self env now sessionId config sessions
  rw [getOrCreateSession_found env' now' sessionId config
    (getOrCreateSession env now sessionId config sessions).2.1
    (getOrCreateSession env now sessionId config sessions).1 h]
  exact ⟨rfl, rfl, rfl⟩

/-- C3: an individual backend's connection failure is isolated: which backends
are attempted does not depend on the failure environment at all, the failing
backend's slot is simply left empty, and every other guarded backend's slot is
populated exactly when its own connection attempt succeeds; the function is
total, so no individual failure propagates. -/
theorem initializeSessionClients_failure_isolation (env env' : ConnEnv)
    (config : DatabaseConfig) :
    startKinds (initializeSessionClients env config).2 =
      startKinds (initializeSessionClients env' config).2 ∧
    ((initializeSessionClients env config).1).postgres.isSome =
      (pgGuard config && env.pgOk) ∧
    ((initializeSessionClients env config).1).redis.isSome =
      (redisGuard config && env.redisOk) ∧
    ((initializeSessionClients env config).1).mongodb.isSome =
      (mongoGuard config && env.mongoOk) ∧
    ((initializeSessionClients env config).1).influxdb.isSome =
      (influxGuard config && urlSupportedProtocol (influxCfgUrl config)) := by
  refine ⟨by rw [startKinds_init, startKinds_init], ?_, ?_, ?_, ?_⟩
  · rw [init_clients_postgres]
    cases hb : (pgGuard config && env.pgOk) <;> simp [hb]
  · rw [init_clients_redis]
    cases hb : (redisGuard config && env.redisOk) <;> simp [hb]
  · rw [init_clients_mongodb]
    cases hb : (mongoGuard config && env.mongoOk) <;> simp [hb]
  · rw [init_clients_influxdb]
    cases hb : (influxGuard config && urlSupportedProtocol (influxCfgUrl config)) <;>
      simp [hb]

/-- C4: the sweep removes exactly the entries whose age strictly exceeds
`maxAgeMs` at call time (every younger entry survives untouched, in place),
and it visits — cleans up and records — every expired entry. -/
theorem cleanupExpiredSessions_exact (cenv : CloseEnv) (now maxAgeMs : Nat)
    (sessions : Registry) (h : (sessions.map Prod.fst).Nodup) :
    (cleanupExpiredSessions cenv now sessions maxAgeMs).1 =
      sessions.filter (fun p => !(expiredB now maxAgeMs p.2)) ∧
    ((cleanupExpiredSessions cenv now sessions maxAgeMs).2).map Prod.fst =
      expiredSessionIds now maxAgeMs sessions :=
  ⟨cleanupExpiredSessions_fst cenv now maxAgeMs sessions h,
   cleanupExpiredSessions_snd_keys cenv now maxAgeMs sessions h⟩

/-- C4 (witness): on a registry with an old session `a` (created at 0) and a
young session `b` (created at 1000), sweeping at time 2000 with a 1500 ms
bound removes exactly `a` and visits exactly `a`. -/
theorem cleanupExpiredSessions_exact_witness :
    (registryW.map Prod.fst).Nodup ∧
    ((cleanupExpiredSessions cenvAllOk 2000 registryW 1500).1 =
      registryW.filter (fun p => !(expiredB 2000 1500 p.2)) ∧
    ((cleanupExpiredSessions cenvAllOk 2000 registryW 1500).2).map Prod.fst =
      expiredSessionIds 2000 1500 registryW) :=
  ⟨by decide, cleanupExpiredSessions_exact cenvAllOk 2000 1500 registryW (by decide)⟩

/-- C5: a backend that is disabled in the configuration always ends up with an
empty client slot, regardless of whether its connection parameters are
present. -/
theorem disabled_backend_slot_empty (env : ConnEnv) (config : DatabaseConfig)
    (k : BackendKind) (h : backendEnabled config k = false) :
    clientSlotIsSome ((initializeSessionClients env config).1) k = false := by
  cases k with
  | postgres =>
    simp only [backendEnabled] at h
    have hg : pgGuard config = false := by simp [pgGuard, h]
    simp [clientSlotIsSome, init_clients_postgres, hg]
  | redis =>
    have hg : redisGuard config = false := by
      simp only [backendEnabled] at h
      cases hr : config.redis with
      | none => simp [redisGuard, hr]
      | some r =>
        rw [hr] at h
        have h' : r.enabled = false := by simpa using h
        simp [redisGuard, hr, h']
    simp [clientSlotIsSome, init_clients_redis, hg]
  | mongodb =>
    have hg : mongoGuard config = false := by
      simp only [backendEnabled] at h
      cases hm : config.mongodb with
      | none => simp [mongoGuard, hm]
      | some mm =>
        rw [hm] at h
        have h' : mm.enabled = false := by simpa using h
        simp [mongoGuard, hm, h']
    simp [clientSlotIsSome, init_clients_mongodb, hg]
  | influxdb =>
    have hg : influxGuard config = false := by
      simp only [backendEnabled] at h
      cases hi : config.influxdb with
      | none => simp [influxGuard, hi]
      | some ii =>
        rw [hi] at h
        have h' : ii.enabled = false := by simpa using h
        simp [influxGuard, hi, h']
    simp [clientSlotIsSome, init_clients_influxdb, hg]

/-- C5 (witness): with Redis disabled although its url is present, the Redis
slot of the initialized clients is empty. -/
theorem disabled_backend_slot_empty_witness :
    backendEnabled cfgRedisDisabledWithUrl BackendKind.redis = false ∧
    clientSlotIsSome ((initializeSessionClients envAllOk cfgRedisDisabledWithUrl).1)
      BackendKind.redis = false :=
  ⟨by decide, disabled_backend_slot_empty envAllOk cfgRedisDisabledWithUrl
    BackendKind.redis (by decide)⟩

/-- C6: cleanup attempts the native close of exactly the non-empty
PostgreSQL/Redis/MongoDB slots, independently of which closes fail (the set of
attempted closes does not depend on the close environment); no close is ever
attempted for the InfluxDB handle; and running cleanup again — under any
close environment — also completes without throwing. -/
theorem cleanup_isolated_no_influx_repeatable (cenv cenv' : CloseEnv)
    (clients : DatabaseClients) :
    ∃ evs evs', cleanupRun cenv clients = Except.ok evs ∧
      cleanupRun cenv' clients = Except.ok evs' ∧
      evs.map CloseEvent.kind = closeTargets clients ∧
      evs'.map CloseEvent.kind = closeTargets clients ∧
      ∀ b : Bool, ({ kind := BackendKind.influxdb, ok := b } : CloseEvent) ∉ evs := by
  refine ⟨cleanupEvents cenv clients, cleanupEvents cenv' clients, rfl, rfl,
    cleanupEvents_map_kind cenv clients, cleanupEvents_map_kind cenv' clients, ?_⟩
  intro b hb
  refine influx_not_mem_closeTargets clients ?_
  rw [← cleanupEvents_map_kind cenv clients]
  exact List.mem_map_of_mem CloseEvent.kind hb

/-- C7: session initialization contacts the backends strictly sequentially —
each started attempt completes (success or failure) before the next begins —
and the attempted backends appear in the fixed source order PostgreSQL,
Redis, MongoDB, InfluxDB, filtered by their guards. -/
theorem initializeSessionClients_sequential (env : ConnEnv)
    (config : DatabaseConfig) :
    seqTrace (initializeSessionClients env config).2 = true ∧
    startKinds (initializeSessionClients env config).2 =
      backendOrder.filter (backendGuard config) :=
  ⟨seqTrace_init env config, startKinds_init env config⟩

/-- C8: once a session is stored, no operation replaces or mutates it: a
`getOrCreateSession` on any id, a tool dispatch, and a resource read all
preserve every existing registry entry exactly (same session value, hence
same `clients` and `createdAt`), and the sweep either keeps an entry exactly
or deletes it whole — shared-state mutation is confined to registry insert
and delete. -/
theorem session_frame_immutability (env : ConnEnv) (cenv : CloseEnv)
    (now maxAgeMs : Nat) (config : DatabaseConfig) (sessions : Registry)
    (q : Except String PgQueryResult) (c : Except String String)
    (otherId id : String) (s : DatabaseSession)
    (hfind : regFind? sessions id = some s)
    (hnd : (sessions.map Prod.fst).Nodup) :
    regFind? (getOrCreateSession env now otherId config sessions).2.1 id = some s ∧
    regFind? (postgresQueryTool env now config sessions q).2 id = some s ∧
    regFind? (redisExecuteCommandTool env now config sessions c).2 id = some s ∧
    regFind? (connectionStatusResource env now config sessions).2 id = some s ∧
    (regFind? (cleanupExpiredSessions cenv now sessions maxAgeMs).1 id = some s ∨
     regFind? (cleanupExpiredSessions cenv now sessions maxAgeMs).1 id = none) := by
  refine ⟨getOrCreateSession_preserves env now otherId config sessions id s hfind,
    ?_, ?_, ?_, ?_⟩
  · rw [postgresQueryTool_snd]
    exact getOrCreateSession_preserves env now "default" config sessions id s hfind
  · rw [redisExecuteCommandTool_snd]
    exact getOrCreateSession_preserves env now "default" config sessions id s hfind
  · rw [connectionStatusResource_snd]
    exact getOrCreateSession_preserves env now "default" config sessions id s hfind
  · rw [cleanupExpiredSessions_fst cenv now maxAgeMs sessions hnd]
    exact regFind?_filter_of_nodup sessions id s _ hnd hfind

/-- C8 (witness): on a concrete two-entry registry, the frame property holds
for the entry `a` across all the operations. -/
theorem session_frame_immutability_witness :
    (regFind? registryW "a" = some sessionRedisW ∧
      (registryW.map Prod.fst).Nodup) ∧
    (regFind? (getOrCreateSession envAllOk 5 "x" cfgPgRedis registryW).2.1 "a" =
        some sessionRedisW ∧
      regFind? (postgresQueryTool envAllOk 5 cfgPgRedis registryW
          (Except.ok { rowCount := 0, rows := [] })).2 "a" = some sessionRedisW ∧
      regFind? (redisExecuteCommandTool envAllOk 5 cfgPgRedis registryW
          (Except.ok "PONG")).2 "a" = some sessionRedisW ∧
      regFind? (connectionStatusResource envAllOk 5 cfgPgRedis registryW).2 "a" =
        some sessionRedisW ∧
      (regFind? (cleanupExpiredSessions cenvAllOk 5 registryW 1500).1 "a" =
          some sessionRedisW ∨
        regFind? (cleanupExpiredSessions cenvAllOk 5 registryW 1500).1 "a" = none)) :=
  ⟨⟨by decide, by decide⟩,
    session_frame_immutability envAllOk cenvAllOk 5 1500 cfgPgRedis registryW
      (Except.ok { rowCount := 0, rows := [] }) (Except.ok "PONG") "x" "a"
      sessionRedisW (by decide) (by decide)⟩

/-- C9 (counterexample): with InfluxDB enabled and both url and token present
and truthy — but the url `localhost:8086` lacking an `http(s)` protocol — the
constructor throws synchronously, the catch leaves the slot empty, and the
trace records a failed InfluxDB attempt: the populated-iff-present
biconditional fails and the failure branch is reachable. -/
theorem influxdb_truthy_params_slot_empty :
    influxGuard cfgInfluxBadUrl = true ∧
    ((initializeSessionClients envAllOk cfgInfluxBadUrl).1).influxdb = none ∧
    ConnEvent.attemptDone BackendKind.influxdb false ∈
      (initializeSessionClients envAllOk cfgInfluxBadUrl).2 := by
  refine ⟨by decide, by decide, by decide⟩

/-- C9 (amended): the InfluxDB slot is independent of server reachability
(constructing the handle performs no network call, so any two environments
yield the same slot), and it is populated iff the configuration has InfluxDB
enabled with truthy url and token and the url carries a supported `http(s)`
protocol; the failure branch is reachable exactly when the guard holds but
the url's protocol is unsupported — the constructor can throw synchronously,
it just never contacts the server. -/
theorem influxdb_slot_constructor_determined (env env' : ConnEnv)
    (config : DatabaseConfig) :
    ((initializeSessionClients env config).1).influxdb =
      ((initializeSessionClients env' config).1).influxdb ∧
    ((initializeSessionClients env config).1).influxdb.isSome =
      (influxGuard config && urlSupportedProtocol (influxCfgUrl config)) ∧
    (ConnEvent.attemptDone BackendKind.influxdb false ∈
        (initializeSessionClients env config).2 ↔
      influxGuard config = true ∧
        urlSupportedProtocol (influxCfgUrl config) = false) := by
  refine ⟨by rw [init_clients_influxdb, init_clients_influxdb], ?_, ?_⟩
  · rw [init_clients_influxdb]
    cases hb : (influxGuard config && urlSupportedProtocol (influxCfgUrl config)) <;>
      simp [hb]
  · rw [init_trace]
    cases h1 : pgGuard config <;> cases h2 : redisGuard config <;>
      cases h3 : mongoGuard config <;> cases h4 : influxGuard config <;>
      cases h5 : urlSupportedProtocol (influxCfgUrl config) <;>
      simp [attemptBlock, h1, h2, h3, h4, h5]

/-- C10: `getOrCreateSession` imposes no non-emptiness precondition on the
session id: called with `""` it creates a fully-formed session (with its
`clients` field initialized exactly as for any other id), stores it under the
key `""`, and returns it. -/
theorem getOrCreateSession_empty_id (env : ConnEnv) (now : Nat)
    (config : DatabaseConfig) :
    (getOrCreateSession env now "" config []).1.id = "" ∧
    (getOrCreateSession env now "" config []).1.createdAt = now ∧
    (getOrCreateSession env now "" config []).1.clients =
      (initializeSessionClients env config).1 ∧
    regFind? (getOrCreateSession env now "" config []).2.1 "" =
      some (getOrCreateSession env now "" config []).1 ∧
    ∀ sid : String, (getOrCreateSession env now sid config []).1.clients =
      (getOrCreateSession env now "" config []).1.clients := by
  refine ⟨rfl, rfl, rfl, regFind?_getOrCreateSession_self env now "" config [], ?_⟩
  intro sid
  rfl

end DbMcp
